import Mathlib

/-!
# bryggio front end: `www/script/index.js`

The script builds one Vue view model (`app`) and defines one function,
`update`, that writes a line to the console and issues a `fetch`.

The embedding is state passing.  The JavaScript host is a `World` holding what
a run of the script leaves behind: the console lines it logs, the outbound HTTP
requests it issues, and the unhandled promise rejections the host reports for
promises the script leaves without a handler.  A JavaScript object is an
ordered list of properties.  A function
that receives an object by reference returns the object as it stands when the
function returns, next to the new world.
-/

namespace Bryggio

/-! ## Values and objects -/

/-- The JavaScript values that occur in the script: `undefined` (a property
that is absent), strings, and Numbers.  A Number is given by the decimal value
of its source literal. -/
inductive JsValue where
  | undefined
  | str (s : String)
  | num (q : ℚ)
  deriving DecidableEq

/-- A plain object: its own properties, in definition order. -/
structure JsObject where
  props : List (String × JsValue)
  deriving DecidableEq

/-- The names of the own properties (`Object.keys(o)`). -/
def JsObject.keys (o : JsObject) : List String :=
  o.props.map Prod.fst

/-- Property read `o.key`: the value stored under `key`, `undefined` when the
object has no such property. -/
def JsObject.get (o : JsObject) (key : String) : JsValue :=
  match o.props.lookup key with
  | some v => v
  | none => JsValue.undefined

/-- The conversion `ToString(v)` that `+` applies to the right operand when the
left one is a string.  `Number::toString` belongs to the host and is taken as
the parameter `numberToString`. -/
def JsValue.toJsString (numberToString : ℚ → String) : JsValue → String
  | JsValue.undefined => "undefined"
  | JsValue.str s => s
  | JsValue.num q => numberToString q

/-! ## The host: console and network -/

/-- An outbound HTTP request as the page hands it to the network: method, URL,
the headers set by the caller (none means defaults only) and the body. -/
structure Request where
  method : String
  url : String
  headers : List (String × String)
  body : Option String
  deriving DecidableEq

/-- What the network does with a request.  `response` covers every HTTP status,
2xx or not; `never` is a request that does not complete. -/
inductive FetchOutcome where
  | response (status : Nat) (body : String)
  | connectionRefused
  | timeout
  | never
  deriving DecidableEq

/-- The state a promise ends up in. -/
inductive PromiseState where
  | pending
  | fulfilled (status : Nat) (body : String)
  | rejected (reason : String)
  deriving DecidableEq

/-- The promise `fetch` hands back. `settles` is the state it reaches once the
network is done with the request (`pending` when that never happens).
`handled` tells whether a reaction (`then`, `catch`, `await`) has been attached
to it. -/
structure Promise where
  settles : PromiseState
  handled : Bool
  deriving DecidableEq

/-- The host state a run of the script acts on.  `console` holds the lines
written with `console.log`, `requests` the outbound requests in the order they
were issued, and `unhandledRejections` the reasons of the promises that
rejected with no handler attached, which the host reports on its own (the
`unhandledrejection` event). -/
structure World where
  console : List String
  requests : List Request
  unhandledRejections : List String
  deriving DecidableEq

/-- A freshly loaded page: nothing logged, nothing requested, nothing
reported. -/
def World.empty : World :=
  { console := [], requests := [], unhandledRejections := [] }

/-- Host function `console.log(line)`: appends one line to the console. -/
def console.log (line : String) (w : World) : World :=
  { w with console := w.console ++ [line] }

/-- Host function `fetch(input)` in its one-argument form: the request is a GET
to `input` with no caller headers and no body.  It is handed to the network and
a promise is returned at once, with no reaction attached.  Any HTTP response
fulfils the promise; a network failure rejects it with a `TypeError`; nothing is
thrown to the caller. -/
def fetch (input : String) (net : FetchOutcome) (w : World) : Promise × World :=
  let request : Request := { method := "GET", url := input, headers := [], body := none }
  let promise : Promise :=
    match net with
    | FetchOutcome.response status body =>
      { settles := PromiseState.fulfilled status body, handled := false }
    | FetchOutcome.connectionRefused =>
      { settles := PromiseState.rejected "TypeError", handled := false }
    | FetchOutcome.timeout =>
      { settles := PromiseState.rejected "TypeError", handled := false }
    | FetchOutcome.never =>
      { settles := PromiseState.pending, handled := false }
  (promise, { w with requests := w.requests ++ [request] })

/-- What the host reports for a promise the script is done with: its reason when
it rejects with no handler attached, nothing otherwise. -/
def Promise.unhandledReport (p : Promise) : List String :=
  match p.settles, p.handled with
  | PromiseState.rejected reason, false => [reason]
  | _, _ => []

/-- The host's promise rejection tracker, applied to a promise the script holds
no reference to any more: a rejection nobody handles is reported. -/
def hostPromiseRejectionTracker (p : Promise) (w : World) : World :=
  { w with unhandledRejections := w.unhandledRejections ++ p.unhandledReport }

/-! ## The script -/

/-- The `data` object literal of the Vue options (lines 3 to 9). -/
def data : JsObject :=
  { props :=
      [ ("name", JsValue.str "BRYGGANS BRYGGERI BÄRS BB"),
        ("message", JsValue.str "Närstrid och torrhumling"),
        ("counter", JsValue.num 0),
        ("recipe", JsValue.str "Lager"),
        ("temp", JsValue.num 20.2) ] }

/-- The `created` lifecycle hook (lines 10 to 12).  It does not touch `this`. -/
def created (this : JsObject) (w : World) : JsObject × World :=
  (this, console.log "Creating brew app" w)

/-- The options object passed to `new Vue`. -/
structure VueOptions where
  el : String
  data : JsObject
  created : JsObject → World → JsObject × World

/-- The constructor `new Vue(options)` as far as the script observes it: the
instance exposes the properties of `options.data`, and the `created` hook runs
once on it during construction. -/
def Vue (options : VueOptions) (w : World) : JsObject × World :=
  options.created options.data w

/-- The top-level statement `const app = new Vue(...)` (lines 1 to 13), run in
world `w`: the view model and the world after construction. -/
def app (w : World) : JsObject × World :=
  Vue { el := "#app", data := data, created := created } w

/-- The result of calling a function on an object: how the call completed
(`Except.ok v` for a normal return of `v`, `Except.error e` for a throw), the
argument object as it stands afterwards, and the world afterwards. -/
structure CallResult where
  completion : Except String JsValue
  arg : JsObject
  world : World

/-- The function `update(app)` (lines 15 to 18).  The promise returned by
`fetch` is dropped as it is, with no reaction attached, so it falls to the
host's rejection tracker; with no `return` statement the call yields
`undefined`. -/
def update (numberToString : ℚ → String) (app : JsObject) (net : FetchOutcome)
    (w : World) : CallResult :=
  let w1 := console.log ("Updating " ++ (app.get "name").toJsString numberToString) w
  let (promise, w2) := fetch "/start_measure" net w1
  let w3 := hostPromiseRejectionTracker promise w2
  { completion := Except.ok JsValue.undefined, arg := app, world := w3 }

/-- A sequence of calls `update(a₁); ...; update(aₙ)`, each paired with what
the network does with its request. -/
def updateAll (numberToString : ℚ → String) :
    List (JsObject × FetchOutcome) → World → World
  | [], w => w
  | (a, net) :: rest, w => updateAll numberToString rest (update numberToString a net w).world

/-- Repeated calls `update(a)` on one object, threading the object through. -/
def updateRepeat (numberToString : ℚ → String) (a : JsObject) :
    List FetchOutcome → World → JsObject × World
  | [], w => (a, w)
  | net :: rest, w =>
    let r := update numberToString a net w
    updateRepeat numberToString r.arg rest r.world

/-- The request `GET /start_measure` with default headers and no body. -/
def startMeasure : Request :=
  { method := "GET", url := "/start_measure", headers := [], body := none }

/-- The station name the view model is initialised with. -/
def stationName : String := "BRYGGANS BRYGGERI BÄRS BB"

/-- The text `line` contains the text `part` somewhere. -/
def Contains (line part : String) : Prop :=
  part.data <:+: line.data

/-! ## Supporting lemmas -/

theorem console_log_console (line : String) (w : World) :
    (console.log line w).console = w.console ++ [line] := rfl

theorem console_log_requests (line : String) (w : World) :
    (console.log line w).requests = w.requests := rfl

theorem fetch_console (input : String) (net : FetchOutcome) (w : World) :
    (fetch input net w).2.console = w.console := rfl

theorem fetch_requests (input : String) (net : FetchOutcome) (w : World) :
    (fetch input net w).2.requests
      = w.requests ++ [{ method := "GET", url := input, headers := [], body := none }] := rfl

/-- The world after `fetch` does not depend on what the network answers. -/
theorem fetch_world (input : String) (net net2 : FetchOutcome) (w : World) :
    (fetch input net w).2 = (fetch input net2 w).2 := rfl

/-- The promise does depend on it: a refused connection and a response settle
the promise differently. -/
theorem fetch_promise_differs (input : String) (w : World) (status : Nat) (body : String) :
    (fetch input FetchOutcome.connectionRefused w).1
      ≠ (fetch input (FetchOutcome.response status body) w).1 := by
  simp [fetch]

theorem update_console (numberToString : ℚ → String) (a : JsObject) (net : FetchOutcome)
    (w : World) :
    (update numberToString a net w).world.console
      = w.console ++ ["Updating " ++ (a.get "name").toJsString numberToString] := rfl

theorem update_requests (numberToString : ℚ → String) (a : JsObject) (net : FetchOutcome)
    (w : World) :
    (update numberToString a net w).world.requests = w.requests ++ [startMeasure] := rfl

theorem update_arg (numberToString : ℚ → String) (a : JsObject) (net : FetchOutcome)
    (w : World) :
    (update numberToString a net w).arg = a := rfl

theorem update_completion (numberToString : ℚ → String) (a : JsObject) (net : FetchOutcome)
    (w : World) :
    (update numberToString a net w).completion = Except.ok JsValue.undefined := rfl

theorem update_unhandled (numberToString : ℚ → String) (a : JsObject) (net : FetchOutcome)
    (w : World) :
    (update numberToString a net w).world.unhandledRejections
      = w.unhandledRejections ++ (fetch "/start_measure" net w).1.unhandledReport := by
  cases net <;> rfl

/-- A handler on the promise would silence the report: the tracker reports
nothing for a handled promise. -/
theorem unhandledReport_handled (st : PromiseState) :
    Promise.unhandledReport { settles := st, handled := true } = [] := by
  cases st <;> rfl

/-- Two HTTP responses, of whatever status, give the same result. -/
theorem update_response (numberToString : ℚ → String) (a : JsObject) (st st2 : Nat)
    (body body2 : String) (w : World) :
    update numberToString a (FetchOutcome.response st body) w
      = update numberToString a (FetchOutcome.response st2 body2) w := rfl

theorem updateRepeat_fst (numberToString : ℚ → String) (a : JsObject)
    (nets : List FetchOutcome) (w : World) :
    (updateRepeat numberToString a nets w).1 = a := by
  induction nets generalizing w with
  | nil => rfl
  | cons net rest ih =>
    simp only [updateRepeat, update_arg]
    exact ih _

theorem app_fst (w : World) : (app w).1 = data := rfl

theorem app_console (w : World) :
    (app w).2.console = w.console ++ ["Creating brew app"] := rfl

theorem stationName_length : stationName.data.length = 25 := by decide

/-! ## The trigger `update` -/

/-- C1: for every view model `status` whose `name` is the string `n`, one call
`update(status)` appends exactly one line to the console, and that line is
`"Updating "` followed by `n`. -/
theorem update_logs_name (numberToString : ℚ → String) (status : JsObject) (n : String)
    (net : FetchOutcome) (w : World) (hname : status.get "name" = JsValue.str n) :
    (update numberToString status net w).world.console = w.console ++ ["Updating " ++ n] := by
  rw [update_console, hname]
  rfl

/-- C1 at the view model the page is initialised with: the logged line is
`"Updating BRYGGANS BRYGGERI BÄRS BB"`. -/
theorem update_logs_name_witness :
    (app World.empty).1.get "name" = JsValue.str "BRYGGANS BRYGGERI BÄRS BB"
      ∧ (update (fun _ => "") (app World.empty).1 FetchOutcome.never World.empty).world.console
          = ["Updating BRYGGANS BRYGGERI BÄRS BB"] :=
  ⟨by decide,
   update_logs_name (fun _ => "") (app World.empty).1 "BRYGGANS BRYGGERI BÄRS BB"
     FetchOutcome.never World.empty (by decide)⟩

/-- C2: for every view model and every outcome of the request, one call
`update(status)` adds exactly one request to the outbound trace; it is a GET to
`/start_measure` with no caller headers and no body, and the trace is the same
for any other outcome `net2`. -/
theorem update_issues_one_get (numberToString : ℚ → String) (status : JsObject)
    (net net2 : FetchOutcome) (w : World) :
    (update numberToString status net w).world.requests
        = w.requests ++ [{ method := "GET", url := "/start_measure", headers := [], body := none }]
      ∧ (update numberToString status net w).world.requests
        = (update numberToString status net2 w).world.requests :=
  ⟨rfl, rfl⟩

/-- C3: after any sequence of calls to `update`, on any view models and with any
outcomes, the outbound trace has grown by exactly one `GET /start_measure` per
call; started on a fresh page it holds exactly as many requests as there were
calls. -/
theorem updateAll_one_request_per_call (numberToString : ℚ → String)
    (calls : List (JsObject × FetchOutcome)) (w : World) :
    (updateAll numberToString calls w).requests
        = w.requests ++ List.replicate calls.length startMeasure
      ∧ (updateAll numberToString calls World.empty).requests.length = calls.length := by
  have key : ∀ (cs : List (JsObject × FetchOutcome)) (v : World),
      (updateAll numberToString cs v).requests
        = v.requests ++ List.replicate cs.length startMeasure := by
    intro cs
    induction cs with
    | nil => intro v; simp [updateAll]
    | cons c rest ih =>
      intro v
      obtain ⟨a, net⟩ := c
      rw [updateAll, ih, update_requests, List.length_cons, List.replicate_succ,
        List.append_assoc, List.singleton_append]
  refine ⟨key calls w, ?_⟩
  rw [key calls World.empty]
  simp [World.empty]

/-- C4 as stated fails: after a refused connection the host has one unhandled
rejection to report, after a `200` it has none, so the effects of the two calls
are not identical. -/
theorem update_refused_differs_from_success :
    (update (fun _ => "") data FetchOutcome.connectionRefused World.empty).world.unhandledRejections
        = ["TypeError"]
      ∧ (update (fun _ => "") data (FetchOutcome.response 200 "") World.empty).world.unhandledRejections
        = []
      ∧ (update (fun _ => "") data FetchOutcome.connectionRefused World.empty).world
        ≠ (update (fun _ => "") data (FetchOutcome.response 200 "") World.empty).world := by
  refine ⟨by decide, by decide, ?_⟩
  intro h
  have hu := congrArg World.unhandledRejections h
  revert hu
  decide

/-- C4, amended: whatever the network does with the request, `update(status)`
completes normally, yields `undefined`, logs exactly one line, and its
completion, argument, console and outbound trace equal those of a call whose
request is answered with `200`.  A response of any status gives the very same
result as a `200`, and a request that never completes leaves nothing to report.
A refused connection or a timeout rejects the dropped promise, and the host
reports exactly one unhandled rejection, a `TypeError`. -/
theorem update_failure_effects (numberToString : ℚ → String) (status : JsObject)
    (net : FetchOutcome) (st : Nat) (body body2 : String) (w : World) :
    (update numberToString status net w).completion = Except.ok JsValue.undefined
      ∧ (update numberToString status net w).world.console.length = w.console.length + 1
      ∧ (update numberToString status net w).completion
          = (update numberToString status (FetchOutcome.response 200 body) w).completion
      ∧ (update numberToString status net w).arg
          = (update numberToString status (FetchOutcome.response 200 body) w).arg
      ∧ (update numberToString status net w).world.console
          = (update numberToString status (FetchOutcome.response 200 body) w).world.console
      ∧ (update numberToString status net w).world.requests
          = (update numberToString status (FetchOutcome.response 200 body) w).world.requests
      ∧ update numberToString status (FetchOutcome.response st body2) w
          = update numberToString status (FetchOutcome.response 200 body) w
      ∧ (update numberToString status (FetchOutcome.response st body2) w).world.unhandledRejections
          = w.unhandledRejections
      ∧ (update numberToString status FetchOutcome.never w).world.unhandledRejections
          = w.unhandledRejections
      ∧ (update numberToString status FetchOutcome.connectionRefused w).world.unhandledRejections
          = w.unhandledRejections ++ ["TypeError"]
      ∧ (update numberToString status FetchOutcome.timeout w).world.unhandledRejections
          = w.unhandledRejections ++ ["TypeError"] := by
  refine ⟨rfl, ?_, rfl, rfl, rfl, rfl, rfl, ?_, ?_, rfl, rfl⟩
  · rw [update_console, List.length_append, List.length_singleton]
  · rw [update_unhandled]; exact List.append_nil _
  · rw [update_unhandled]; exact List.append_nil _

/-- C5: two view models with the same `name` give the same completion, the same
console and the same outbound trace, whatever their other properties are. -/
theorem update_reads_only_name (numberToString : ℚ → String) (s1 s2 : JsObject)
    (net : FetchOutcome) (w : World) (hname : s1.get "name" = s2.get "name") :
    (update numberToString s1 net w).world = (update numberToString s2 net w).world
      ∧ (update numberToString s1 net w).completion
          = (update numberToString s2 net w).completion := by
  refine ⟨?_, rfl⟩
  simp only [update, hname]

/-- C5 at the initial view model and one that shares only its `name`. -/
theorem update_reads_only_name_witness :
    data.get "name"
        = JsObject.get { props := [("counter", JsValue.num 7),
            ("name", JsValue.str "BRYGGANS BRYGGERI BÄRS BB")] } "name"
      ∧ (update (fun _ => "") data FetchOutcome.timeout World.empty).world
        = (update (fun _ => "") { props := [("counter", JsValue.num 7),
            ("name", JsValue.str "BRYGGANS BRYGGERI BÄRS BB")] }
            FetchOutcome.timeout World.empty).world :=
  ⟨by decide,
   (update_reads_only_name (fun _ => "") data
      { props := [("counter", JsValue.num 7), ("name", JsValue.str "BRYGGANS BRYGGERI BÄRS BB")] }
      FetchOutcome.timeout World.empty (by decide)).1⟩

/-- C9: `update` returns normally with `undefined` when the request never
completes, and for every outcome its completion, its argument, its console and
its outbound trace are the ones it gives in that case; the promise of such a
request stays pending. -/
theorem update_returns_without_waiting (numberToString : ℚ → String) (status : JsObject)
    (net : FetchOutcome) (w : World) :
    (update numberToString status FetchOutcome.never w).completion
        = Except.ok JsValue.undefined
      ∧ (update numberToString status net w).completion
          = (update numberToString status FetchOutcome.never w).completion
      ∧ (update numberToString status net w).arg
          = (update numberToString status FetchOutcome.never w).arg
      ∧ (update numberToString status net w).world.console
          = (update numberToString status FetchOutcome.never w).world.console
      ∧ (update numberToString status net w).world.requests
          = (update numberToString status FetchOutcome.never w).world.requests
      ∧ (fetch "/start_measure" FetchOutcome.never w).1.settles = PromiseState.pending :=
  ⟨rfl, rfl, rfl, rfl, rfl, rfl⟩

/-- C10: `update(status)` leaves its argument as it was, so every property reads
as before; repeated on the initial view model any number of times, `counter`
still reads `0`. -/
theorem update_does_not_mutate (numberToString : ℚ → String) (status : JsObject)
    (net : FetchOutcome) (nets : List FetchOutcome) (w w0 : World) (key : String) :
    (update numberToString status net w).arg = status
      ∧ (update numberToString status net w).arg.get key = status.get key
      ∧ (updateRepeat numberToString (app w0).1 nets w).1.get "counter" = JsValue.num 0 := by
  refine ⟨rfl, rfl, ?_⟩
  rw [updateRepeat_fst, app_fst]
  decide

/-! ## Initialisation -/

/-- C6 as stated fails: on a fresh page the single line logged by the
initialisation does not contain the station name. -/
theorem created_log_contains_name_false :
    ¬ ∃ line, (app World.empty).2.console = [line]
        ∧ Contains line "BRYGGANS BRYGGERI BÄRS BB" := by
  rintro ⟨line, hline, hcontains⟩
  have hl : line = "Creating brew app" := by
    have h := app_console World.empty
    rw [hline] at h
    simpa [World.empty] using h
  subst hl
  have hlen := List.IsInfix.length_le hcontains
  revert hlen
  decide

/-- C6, amended: initialising the view model logs exactly one line, and that
line does not contain the station name held in the `name` property. -/
theorem created_logs_one_line_without_name (w : World) :
    (app w).1.get "name" = JsValue.str stationName
      ∧ ∃ line, (app w).2.console = w.console ++ [line] ∧ ¬ Contains line stationName := by
  refine ⟨by rw [app_fst]; decide, "Creating brew app", app_console w, ?_⟩
  intro hcontains
  have hlen := List.IsInfix.length_le hcontains
  revert hlen
  decide

/-- C7: initialising the view model appends exactly the line
`"Creating brew app"` to the console and issues no request. -/
theorem created_logs_fixed_line (w : World) :
    (app w).2.console = w.console ++ ["Creating brew app"]
      ∧ (app w).2.requests = w.requests :=
  ⟨rfl, rfl⟩

/-- C8 as stated fails: the view model has no property `temperature` (reading
it gives `undefined`), so its properties are not the five listed. -/
theorem temperature_field_absent :
    ¬ (∀ k, k ∈ (app World.empty).1.keys
        ↔ k ∈ ["name", "message", "counter", "recipe", "temperature"]) := by
  intro h
  have hmem : "temperature" ∈ (app World.empty).1.keys := (h "temperature").2 (by decide)
  revert hmem
  decide

/-- C8, amended: the view model created on load has exactly the five properties
`name`, `message`, `counter`, `recipe` and `temp`; `name`, `message` and
`recipe` are strings, `counter` is the number `0`, a non-negative integer, and
`temp` is a number. -/
theorem app_has_five_fields (w : World) :
    (app w).1.keys = ["name", "message", "counter", "recipe", "temp"]
      ∧ (∃ s, (app w).1.get "name" = JsValue.str s)
      ∧ (∃ s, (app w).1.get "message" = JsValue.str s)
      ∧ (∃ s, (app w).1.get "recipe" = JsValue.str s)
      ∧ (app w).1.get "counter" = JsValue.num 0
      ∧ (∃ n : ℕ, (app w).1.get "counter" = JsValue.num (n : ℚ))
      ∧ (∃ q, (app w).1.get "temp" = JsValue.num q)
      ∧ (app w).1.get "temperature" = JsValue.undefined := by
  rw [app_fst]
  refine ⟨by decide, ⟨_, rfl⟩, ⟨_, rfl⟩, ⟨_, rfl⟩, by decide, ⟨0, ?_⟩, ⟨_, rfl⟩, by decide⟩
  simp [data, JsObject.get, List.lookup]

end Bryggio
